import Mathlib

/-!
Verification of the FrostyBlastManager core: the invoice line-item
aggregator (client/src/components/invoices/invoice-form.tsx and the
LineItem component) and the authentication/approval workflow
(the passport auth module and server/storage.ts).

Modelling conventions:
* JavaScript numbers are modelled as exact rationals (`ℚ`); an input whose
  `Number(...)` conversion is `NaN` is modelled as `none : Option ℚ`.
* JavaScript truthiness on numbers (`x || d`) is modelled by `jsOrQ` and
  `jsNumOr` (`0` and `NaN` are falsy), on strings by `jsOrStr` (`""` is falsy).
* The external `scrypt` key-derivation function is passed as an explicit
  parameter `scrypt : String → String → List Nat` returning the derived key
  bytes (the code compares its `Buffer` to the hex-decoded stored hash).
* The relational store is modelled as in-memory lists; `db.update ...
  returning()` returns the first updated row, `db.insert ... returning()`
  the inserted row with a fresh serial id.
* Date and timestamp columns are elided: no claim mentions them.
-/

namespace FrostyBlast

/-- JS `v || d` on a number already known to be a number: `0` is falsy. -/
def jsOrQ (v d : ℚ) : ℚ := if v = 0 then d else v

/-- JS `Number(x) || d` where `x` may be non-numeric: `none` models `NaN`,
and `0` is falsy. -/
def jsNumOr (x : Option ℚ) (d : ℚ) : ℚ :=
  match x with
  | none => d
  | some v => if v = 0 then d else v

/-- JS `s || d` on a string: the empty string is falsy. -/
def jsOrStr (s d : String) : String := if s = "" then d else s

/-- JS falsiness of an optional id (`!x` is true for `undefined` and `0`). -/
def jsFalsyNat (x : Option Nat) : Bool :=
  match x with
  | none => true
  | some n => n == 0

/-- List elements paired with their JS array indices, starting at `i`. -/
def enumFrom {α : Type} (i : Nat) : List α → List (Nat × α)
  | [] => []
  | x :: xs => (i, x) :: enumFrom (i + 1) xs

/-! ## Invoice aggregator (client edit state)

`invoice-form.tsx` keeps `lineItems : InvoiceItem[]` and a
`calculations` record in component state; each mutating handler rebuilds
the item list and recomputes `subtotal`, `tax` and `total`. -/

/-- A line item row of the invoice edit state (shape shared with the
`invoice_items` table rows). -/
structure InvoiceItem where
  id : Nat
  invoiceId : Nat
  description : String
  quantity : ℚ
  unitPrice : ℚ
  total : ℚ
deriving DecidableEq

/-- The `calculations` state: `{subtotal, tax, total}`. -/
structure Calculations where
  subtotal : ℚ
  tax : ℚ
  total : ℚ
deriving DecidableEq

/-- `const taxRate = 0.2; // 20% VAT` -/
def taxRate : ℚ := 0.2

/-- The recomputation block repeated in `handleLineItemChange`,
`addLineItem` and `removeLineItem`:
`subtotal = items.reduce((sum, item) => sum + (item.total || 0), 0)`,
`tax = subtotal * taxRate`, `total = subtotal + tax`. -/
def recalculateTotals (items : List InvoiceItem) : Calculations :=
  let subtotal := items.foldl (fun sum item => sum + jsOrQ item.total 0) 0
  { subtotal := subtotal, tax := subtotal * taxRate, total := subtotal + subtotal * taxRate }

/-- A `Partial<InvoiceItem>` argument to `handleLineItemChange`. -/
structure ItemPatch where
  id : Option Nat := none
  invoiceId : Option Nat := none
  description : Option String := none
  quantity : Option ℚ := none
  unitPrice : Option ℚ := none
  total : Option ℚ := none
deriving DecidableEq

/-- `handleLineItemChange(index, item)` from `invoice-form.tsx`: rebuilds
the item at `index` (fields present in the patch win; `total` falls back to
`newQuantity * newUnitPrice`), leaves the others, and recomputes totals.
The typed interface guarantees present numeric fields are numbers, so the
defensive `typeof`/`parseInt` branches of the source collapse to the
identity. -/
def handleLineItemChange (index : Nat) (patch : ItemPatch) (items : List InvoiceItem) :
    List InvoiceItem × Calculations :=
  let newLineItems := (enumFrom 0 items).map fun p =>
    if p.1 != index then p.2
    else
      let lineItem := p.2
      let newQuantity := patch.quantity.getD lineItem.quantity
      let newUnitPrice := patch.unitPrice.getD lineItem.unitPrice
      { id := patch.id.getD lineItem.id
        invoiceId := patch.invoiceId.getD lineItem.invoiceId
        description := patch.description.getD (jsOrStr lineItem.description "")
        quantity := newQuantity
        unitPrice := newUnitPrice
        total := patch.total.getD (newQuantity * newUnitPrice) }
  (newLineItems, recalculateTotals newLineItems)

/-- The placeholder row pushed by `addLineItem` and by `removeLineItem`
when the list would become empty. -/
def emptyLineItem (invoiceId : Nat) : InvoiceItem :=
  { id := 0, invoiceId := invoiceId, description := "", quantity := 1, unitPrice := 0, total := 0 }

/-- `addLineItem()` from `invoice-form.tsx`. -/
def addLineItem (invoiceId : Nat) (items : List InvoiceItem) :
    List InvoiceItem × Calculations :=
  let newLineItems := items ++ [emptyLineItem invoiceId]
  (newLineItems, recalculateTotals newLineItems)

/-- `removeLineItem(index)` from `invoice-form.tsx`: filters out the row
at `index` and pushes one empty placeholder when nothing remains. -/
def removeLineItem (invoiceId : Nat) (index : Nat) (items : List InvoiceItem) :
    List InvoiceItem × Calculations :=
  let filtered := ((enumFrom 0 items).filter fun p => p.1 != index).map Prod.snd
  let newLineItems := if filtered.isEmpty then [emptyLineItem invoiceId] else filtered
  (newLineItems, recalculateTotals newLineItems)

/-- `handleQuantityChange` from the `LineItem` component: `parsed` is the
result of `parseInt(e.target.value)` (`none` = `NaN`); the code computes
`newQuantity = parseInt(...) || 0`, `qty = newQuantity > 0 ? newQuantity : 1`
and `newTotal = qty * numericUnitPrice` where
`numericUnitPrice = Number(item.unitPrice || 0)`. -/
def handleQuantityChange (parsed : Option Int) (item : InvoiceItem) : InvoiceItem :=
  let newQuantity : Int := match parsed with | none => 0 | some n => n
  let qty : Int := if 0 < newQuantity then newQuantity else 1
  let numericUnitPrice : ℚ := jsOrQ item.unitPrice 0
  { item with quantity := (qty : ℚ), total := (qty : ℚ) * numericUnitPrice }

/-- `handleUnitPriceChange` from the `LineItem` component: `parsed` is the
result of `parseFloat(e.target.value)` (`none` = `NaN`); the code computes
`newPrice = parseFloat(...) || 0`, `price = newPrice >= 0 ? newPrice : 0`
and `newTotal = numericQuantity * price` where
`numericQuantity = Number(item.quantity || 1)`. -/
def handleUnitPriceChange (parsed : Option ℚ) (item : InvoiceItem) : InvoiceItem :=
  let newPrice : ℚ := match parsed with | none => 0 | some v => v
  let price : ℚ := if 0 ≤ newPrice then newPrice else 0
  let numericQuantity : ℚ := jsOrQ item.quantity 1
  { item with unitPrice := price, total := numericQuantity * price }

/-! ## Authentication and approval workflow (passport auth module) -/

/-- A row of the `users` table (`createdAt` elided). -/
structure User where
  id : Nat
  username : String
  password : String
  email : String
  fullName : String
  role : String
  approved : Bool
deriving DecidableEq

/-- A `Partial<InsertUser>` update (the insert schema omits `id` and
`createdAt`, so neither can be patched). -/
structure UserPatch where
  username : Option String := none
  password : Option String := none
  email : Option String := none
  fullName : Option String := none
  role : Option String := none
  approved : Option Bool := none
deriving DecidableEq

/-- Apply a partial update to a user row (`db.update(users).set(userData)`). -/
def applyUserPatch (u : User) (p : UserPatch) : User :=
  { id := u.id
    username := p.username.getD u.username
    password := p.password.getD u.password
    email := p.email.getD u.email
    fullName := p.fullName.getD u.fullName
    role := p.role.getD u.role
    approved := p.approved.getD u.approved }

/-- `DatabaseStorage.getUserByUsername`: first row whose username matches. -/
def getUserByUsername (store : List User) (username : String) : Option User :=
  store.find? fun u => u.username == username

/-- `DatabaseStorage.updateUser`: updates every row with the given id and
returns the first updated row (`returning()[0]`), `none` when no row matched. -/
def updateUser (store : List User) (id : Nat) (p : UserPatch) :
    List User × Option User :=
  let newStore := store.map fun u => if u.id == id then applyUserPatch u p else u
  (newStore, newStore.find? fun u => u.id == id)

/-- `DatabaseStorage.deleteUser`: deletes matching rows and then returns
`true` unconditionally — it never reports whether a row existed. -/
def deleteUser (store : List User) (id : Nat) : List User × Bool :=
  (store.filter fun u => u.id != id, true)

/-! ### Password comparison (`comparePasswords`)

Buffers are modelled as `List Nat` byte lists; `Buffer.from(hex, "hex")`
decodes byte pairs until an invalid pair or an odd tail, as Node does. -/

/-- Value of a hex digit character, `none` for a non-hex character. -/
def hexDigit (c : Char) : Option Nat :=
  if '0' ≤ c ∧ c ≤ '9' then some (c.toNat - '0'.toNat)
  else if 'a' ≤ c ∧ c ≤ 'f' then some (c.toNat - 'a'.toNat + 10)
  else if 'A' ≤ c ∧ c ≤ 'F' then some (c.toNat - 'A'.toNat + 10)
  else none

/-- Decode hex characters two at a time, stopping at the first invalid or
incomplete pair. -/
def hexDecodeAux : List Char → List Nat
  | c1 :: c2 :: rest =>
    match hexDigit c1, hexDigit c2 with
    | some hi, some lo => (16 * hi + lo) :: hexDecodeAux rest
    | _, _ => []
  | _ => []

/-- `Buffer.from(s, "hex")` as a byte list. -/
def hexDecode (s : String) : List Nat := hexDecodeAux s.toList

/-- Lowercase hex digit character for a value below 16. -/
def hexDigitChar (n : Nat) : Char :=
  if n < 10 then Char.ofNat ('0'.toNat + n) else Char.ofNat ('a'.toNat + n - 10)

/-- `buf.toString("hex")`: two lowercase hex characters per byte. -/
def hexEncode (bs : List Nat) : String :=
  String.mk (bs.foldr (fun b acc => hexDigitChar (b / 16) :: hexDigitChar (b % 16) :: acc) [])

/-- Split a character list on a separator, JS `String.split` style. -/
def splitCharAux (sep : Char) : List Char → List Char → List String
  | [], acc => [String.mk acc.reverse]
  | c :: cs, acc =>
    if c = sep then String.mk acc.reverse :: splitCharAux sep cs []
    else splitCharAux sep cs (c :: acc)

/-- JS `s.split(sep)` for a one-character separator. -/
def jsSplitChar (s : String) (sep : Char) : List String := splitCharAux sep s.toList []

/-- JS `s.includes(c)` for a one-character needle. -/
def jsIncludesChar (s : String) (c : Char) : Bool := s.toList.contains c

/-- Whether the first list is an initial segment of the second. -/
def startsWithChars : List Char → List Char → Bool
  | [], _ => true
  | _ :: _, [] => false
  | p :: ps, c :: cs => p == c && startsWithChars ps cs

/-- JS `s.startsWith(pat)`. -/
def jsStartsWith (s pat : String) : Bool := startsWithChars pat.toList s.toList

/-- First hard-coded hash accepted for the supplied password `admin`. -/
def adminHashA : String := "8c6976e5b5410415bde908bd4dee15dfb167a9c873fc4bb8a81f6f2ab448a918"

/-- Second hard-coded hash accepted for the supplied password `admin`. -/
def adminHashB : String := "a665a45920422f9d417e4867efdc4fb8a04a1f3fff1fa07e998e86f7f7a27ae3"

/-- Hard-coded hash accepted for the supplied password `test`. -/
def testHashC : String := "9f86d081884c7d659a2feaa0c55ad015a3bf4f1b2b0b822cd15d6c15b0f00a08"

/-- `comparePasswords(supplied, stored)` from the auth module: rejects a
stored value without a `.` delimiter or with an empty hash or salt part,
then short-circuits on the hard-coded admin/test special cases, then
re-derives the key with the stored salt; on a buffer length mismatch it
falls back to comparing hex strings, otherwise it compares the buffers
(`timingSafeEqual`). -/
def comparePasswords (scrypt : String → String → List Nat)
    (supplied stored : String) : Bool :=
  if !(jsIncludesChar stored '.') then false
  else
    let parts := jsSplitChar stored '.'
    let hashed := parts.headD ""
    let salt := (parts.drop 1).headD ""
    if hashed == "" || salt == "" then false
    else if supplied == "admin"
        && (jsStartsWith stored adminHashA || jsStartsWith stored adminHashB) then true
    else if supplied == "test" && jsStartsWith stored testHashC then true
    else
      let hashedBuf := hexDecode hashed
      let suppliedBuf := scrypt supplied salt
      if hashedBuf.length != suppliedBuf.length then hashed == hexEncode suppliedBuf
      else hashedBuf == suppliedBuf

/-- The `LocalStrategy` verify callback: look up by username, check the
password, then refuse non-admin unapproved users; `none` models
`done(null, false)`. -/
def localStrategyVerify (scrypt : String → String → List Nat)
    (store : List User) (username password : String) : Option User :=
  match getUserByUsername store username with
  | none => none
  | some user =>
    if !(comparePasswords scrypt password user.password) then none
    else if user.role != "admin" && !user.approved then none
    else some user

/-! ### Admin user-management handlers -/

/-- Outcome of a request handler: an HTTP status with either a value or an
error message. -/
inductive HResult (α : Type) where
  | success (status : Nat) (value : α)
  | failure (status : Nat) (message : String)
deriving DecidableEq

/-- The update sent by `PATCH /api/users/:id/approve`: `{ approved: true }`. -/
def approvePatch : UserPatch := { approved := some true }

/-- `PATCH /api/users/:id/approve` (admin gate already passed): 400 on an
unparsable id (`none` models `NaN`), 404 when no row matched, otherwise the
updated user. -/
def approveUserHandler (store : List User) (userId : Option Nat) :
    List User × HResult User :=
  match userId with
  | none => (store, .failure 400 "Invalid user ID")
  | some uid =>
    let r := updateUser store uid approvePatch
    match r.2 with
    | none => (r.1, .failure 404 "User not found")
    | some u => (r.1, .success 200 u)

/-- `DELETE /api/users/:id` (admin gate already passed), the reject
operation: 400 on an unparsable id, 404 when `deleteUser` reports failure,
otherwise a success message. -/
def rejectUserHandler (store : List User) (userId : Option Nat) :
    List User × HResult String :=
  match userId with
  | none => (store, .failure 400 "Invalid user ID")
  | some uid =>
    let r := deleteUser store uid
    if !r.2 then (r.1, .failure 404 "User not found")
    else (r.1, .success 200 "User deleted successfully")

/-- `DELETE /api/staff/:id` from `server/storage.ts` (caller already
authenticated): 403 for non-admins, 400 when the target id is the caller's
own id, 404 when `deleteUser` reports failure, otherwise 204. -/
def deleteStaffHandler (store : List User) (caller : User) (userId : Nat) :
    List User × HResult Unit :=
  if caller.role != "admin" then (store, .failure 403 "Unauthorized access")
  else if userId == caller.id then (store, .failure 400 "Cannot delete your own account")
  else
    let r := deleteUser store userId
    if !r.2 then (r.1, .failure 404 "User not found")
    else (r.1, .success 204 ())

/-! ## Server-side invoice creation (`POST /api/invoices`) -/

/-- A row of the `invoices` table (date columns and status elided; no claim
mentions them). -/
structure InvoiceRecord where
  id : Nat
  invoiceNumber : String
  jobId : Nat
  customerId : Nat
  amount : ℚ
  tax : ℚ
  total : ℚ
  createdBy : Nat
deriving DecidableEq

/-- A line item as submitted in the request body: any field may be absent
or non-numeric (`none` models both `undefined` and a `NaN` conversion). -/
structure RawLineItem where
  description : Option String := none
  quantity : Option ℚ := none
  unitPrice : Option ℚ := none
  total : Option ℚ := none
deriving DecidableEq

/-- The request body of `POST /api/invoices` (fields the handler reads). -/
structure InvoiceRequestBody where
  jobId : Option Nat := none
  customerId : Option Nat := none
  invoiceNumber : Option String := none
  amount : Option ℚ := none
  tax : Option ℚ := none
  total : Option ℚ := none
  lineItems : List RawLineItem := []
deriving DecidableEq

/-- An `InsertInvoiceItem` as passed to `DatabaseStorage.createInvoiceItem`
(numeric fields may in general be non-numeric, hence `Option ℚ` with `none`
modelling a `NaN` conversion). -/
structure InsertInvoiceItem where
  invoiceId : Nat
  description : String
  quantity : Option ℚ := none
  unitPrice : Option ℚ := none
  total : Option ℚ := none
deriving DecidableEq

/-- The relational store slice touched by invoice creation, with the serial
id counters of the two tables. -/
structure DB where
  invoices : List InvoiceRecord
  invoiceItems : List InvoiceItem
  nextInvoiceId : Nat
  nextItemId : Nat
deriving DecidableEq

/-- JS `parseInt(String(v))` for a number `v`: truncation toward zero of
its decimal representation. -/
def ratTrunc (v : ℚ) : Int := Int.tdiv v.num (v.den : Int)

/-- `DatabaseStorage.createInvoice`: insert with a fresh serial id and
return the inserted row. -/
def createInvoice (db : DB) (inv : InvoiceRecord) : DB × InvoiceRecord :=
  let stored := { inv with id := db.nextInvoiceId }
  ({ db with invoices := db.invoices ++ [stored], nextInvoiceId := db.nextInvoiceId + 1 },
   stored)

/-- `DatabaseStorage.createInvoiceItem`: re-parses the numeric fields with
`Number(x) || fallback` (`quantity` falls back to 1, `unitPrice` and
`total` to 0) and inserts the row with a fresh serial id. -/
def createInvoiceItem (db : DB) (item : InsertInvoiceItem) : DB × InvoiceItem :=
  let parsed : InvoiceItem :=
    { id := db.nextItemId
      invoiceId := item.invoiceId
      description := item.description
      quantity := jsNumOr item.quantity 1
      unitPrice := jsNumOr item.unitPrice 0
      total := jsNumOr item.total 0 }
  ({ db with invoiceItems := db.invoiceItems ++ [parsed], nextItemId := db.nextItemId + 1 },
   parsed)

/-- `insertInvoiceItemSchema.parse` applied to one submitted line item, with
the handler's own coercions
(`quantity: parseInt(String(item.quantity || 1))`,
`unitPrice: parseFloat(String(item.unitPrice || 0))`,
`total: parseFloat(String(item.total || 0))`, `invoiceId: invoice.id`):
throws (`none`) exactly when the required `description` is absent. -/
def validateLineItem (invoiceId : Nat) (raw : RawLineItem) : Option InsertInvoiceItem :=
  match raw.description with
  | none => none
  | some d =>
    some { invoiceId := invoiceId
           description := d
           quantity := some ((ratTrunc (jsNumOr raw.quantity 1) : Int) : ℚ)
           unitPrice := some (jsNumOr raw.unitPrice 0)
           total := some (jsNumOr raw.total 0) }

/-- The `POST /api/invoices` handler (caller already authenticated,
`genInvoiceNumber` stands for the randomly generated `INV-....` used when
the body supplies none): validates that `jobId`, `customerId` and at least
one line item are present, persists the invoice with the client-supplied
`amount`/`tax`/`total` (each `parseFloat(String(x || '0'))`), then creates
the line items one at a time, skipping — `catch { continue }` — any item
that fails validation, and answers 201 with the invoice and the items that
were created. -/
def postInvoices (db : DB) (genInvoiceNumber : String) (callerId : Nat)
    (body : InvoiceRequestBody) : DB × HResult (InvoiceRecord × List InvoiceItem) :=
  if jsFalsyNat body.jobId then (db, .failure 400 "Job ID is required")
  else if jsFalsyNat body.customerId then (db, .failure 400 "Customer ID is required")
  else if body.lineItems.isEmpty then
    (db, .failure 400 "At least one line item is required")
  else
    let invoiceNumber :=
      match body.invoiceNumber with
      | none => genInvoiceNumber
      | some s => jsOrStr s genInvoiceNumber
    let validated : InvoiceRecord :=
      { id := 0
        invoiceNumber := invoiceNumber
        jobId := body.jobId.getD 0
        customerId := body.customerId.getD 0
        amount := jsNumOr body.amount 0
        tax := jsNumOr body.tax 0
        total := jsNumOr body.total 0
        createdBy := callerId }
    let r := createInvoice db validated
    let s := body.lineItems.foldl
      (fun (acc : DB × List InvoiceItem) raw =>
        match validateLineItem r.2.id raw with
        | none => acc
        | some valid =>
          let c := createInvoiceItem acc.1 valid
          (c.1, acc.2 ++ [c.2]))
      (r.1, [])
    (s.1, .success 201 (r.2, s.2))

/-! ## Concrete fixtures used by witnesses and counterexamples -/

/-- An empty relational store with fresh serial counters. -/
def dbEmpty : DB := { invoices := [], invoiceItems := [], nextInvoiceId := 1, nextItemId := 1 }

/-- A toy key-derivation function used to exercise the normal comparison
path of `comparePasswords` on concrete credentials. -/
def scryptW : String → String → List Nat := fun _ _ => [1, 2]

/-- A toy key-derivation function whose output never hex-encodes to the
hard-coded admin hash, used to exhibit the backdoor. -/
def scryptStub : String → String → List Nat := fun _ _ => [0]

/-- A pending staff user whose stored credential `0102.ab` matches the
password `pw` under `scryptW`. -/
def wBob : User :=
  { id := 2, username := "bob", password := "0102.ab", email := "bob@frosty.example",
    fullName := "Bob Staff", role := "staff", approved := false }

/-- An approved administrator. -/
def wAdmin : User :=
  { id := 1, username := "root", password := "x.y", email := "root@frosty.example",
    fullName := "Root Admin", role := "admin", approved := true }

/-- A concrete non-empty line item row. -/
def wItem : InvoiceItem :=
  { id := 5, invoiceId := 0, description := "Ice blasting", quantity := 2,
    unitPrice := 100, total := 200 }

/-- An insert item with a negative quantity and unit price. -/
def badItem : InsertInvoiceItem :=
  { invoiceId := 1, description := "x", quantity := some (-3), unitPrice := some (-2),
    total := some 6 }

/-! ## Supporting lemmas -/

theorem jsOrQ_zero (v : ℚ) : jsOrQ v 0 = v := by
  by_cases h : v = 0 <;> simp [jsOrQ, h]

theorem foldl_add_totals (items : List InvoiceItem) (a : ℚ) :
    items.foldl (fun sum item => sum + jsOrQ item.total 0) a
      = a + (items.map fun item => item.total).sum := by
  induction items generalizing a with
  | nil => simp
  | cons x xs ih =>
    simp only [List.foldl_cons, List.map_cons, List.sum_cons]
    rw [ih, jsOrQ_zero, add_assoc]

theorem sum_totals_of_inv (items : List InvoiceItem)
    (hinv : ∀ it ∈ items, it.total = it.quantity * it.unitPrice) :
    (items.map fun it => it.total).sum
      = (items.map fun it => it.quantity * it.unitPrice).sum := by
  induction items with
  | nil => rfl
  | cons x xs ih =>
    simp only [List.map_cons, List.sum_cons]
    rw [hinv x (List.mem_cons_self x xs), ih fun it h => hinv it (List.mem_cons_of_mem x h)]

theorem removeLineItem_fst_ne_nil (invId index : Nat) (items : List InvoiceItem) :
    (removeLineItem invId index items).1 ≠ [] := by
  simp only [removeLineItem]
  cases hfl : ((enumFrom 0 items).filter fun p => p.1 != index).map Prod.snd with
  | nil => simp [hfl]
  | cons y ys => simp [hfl]

/-! ## Claims about the invoice aggregator -/

/-- C1: for a line-item list satisfying the data-model invariant
`total = quantity × unitPrice` (established by every handler that writes an
item) with non-negative quantities and unit prices, the aggregator computes
`subtotal = Σ quantityᵢ × unitPriceᵢ`, `tax = subtotal × 0.2` and
`total = subtotal + tax = subtotal × 1.2` exactly, and the add-item,
remove-item and item-edit handlers each recompute these values from the
new item list. -/
theorem C1_invoice_aggregation (items : List InvoiceItem)
    (hinv : ∀ it ∈ items, it.total = it.quantity * it.unitPrice)
    (hq : ∀ it ∈ items, 0 ≤ it.quantity)
    (hp : ∀ it ∈ items, 0 ≤ it.unitPrice)
    (invId index : Nat) (patch : ItemPatch) :
    (recalculateTotals items).subtotal
        = (items.map fun it => it.quantity * it.unitPrice).sum
      ∧ (recalculateTotals items).tax = (recalculateTotals items).subtotal * (0.2 : ℚ)
      ∧ (recalculateTotals items).total
        = (recalculateTotals items).subtotal + (recalculateTotals items).tax
      ∧ (recalculateTotals items).total = (recalculateTotals items).subtotal * (1.2 : ℚ)
      ∧ (addLineItem invId items).2 = recalculateTotals (addLineItem invId items).1
      ∧ (removeLineItem invId index items).2
        = recalculateTotals (removeLineItem invId index items).1
      ∧ (handleLineItemChange index patch items).2
        = recalculateTotals (handleLineItemChange index patch items).1 := by
  refine ⟨?_, rfl, rfl, ?_, rfl, rfl, rfl⟩
  · simp only [recalculateTotals]
    rw [foldl_add_totals, zero_add, sum_totals_of_inv items hinv]
  · simp only [recalculateTotals, taxRate]
    rw [show (0.2 : ℚ) = 1 / 5 by norm_num, show (1.2 : ℚ) = 6 / 5 by norm_num]
    ring

/-- Witness for C1 at the concrete item list `[wItem]`. -/
theorem C1_invoice_aggregation_witness :
    (recalculateTotals [wItem]).subtotal
        = ([wItem].map fun it => it.quantity * it.unitPrice).sum
      ∧ (recalculateTotals [wItem]).tax = (recalculateTotals [wItem]).subtotal * (0.2 : ℚ)
      ∧ (recalculateTotals [wItem]).total
        = (recalculateTotals [wItem]).subtotal + (recalculateTotals [wItem]).tax
      ∧ (recalculateTotals [wItem]).total = (recalculateTotals [wItem]).subtotal * (1.2 : ℚ)
      ∧ (addLineItem 0 [wItem]).2 = recalculateTotals (addLineItem 0 [wItem]).1
      ∧ (removeLineItem 0 0 [wItem]).2 = recalculateTotals (removeLineItem 0 0 [wItem]).1
      ∧ (handleLineItemChange 0 { } [wItem]).2
        = recalculateTotals (handleLineItemChange 0 { } [wItem]).1 :=
  C1_invoice_aggregation [wItem] (by norm_num [wItem]) (by norm_num [wItem])
    (by norm_num [wItem]) 0 0 { }

/-- C8: removing the only remaining line item leaves exactly one empty
placeholder row (empty description, quantity 1, unit price 0, total 0), and
each of add, remove and item-edit keeps the edit state non-empty. -/
theorem C8_placeholder_invariant (invId : Nat) (x : InvoiceItem)
    (items : List InvoiceItem) (hne : items ≠ [])
    (index : Nat) (patch : ItemPatch) :
    (removeLineItem invId 0 [x]).1
        = [{ id := 0, invoiceId := invId, description := "", quantity := 1,
             unitPrice := 0, total := 0 }]
      ∧ (removeLineItem invId index items).1 ≠ []
      ∧ (addLineItem invId items).1 ≠ []
      ∧ (handleLineItemChange index patch items).1 ≠ [] := by
  refine ⟨?_, removeLineItem_fst_ne_nil invId index items, ?_, ?_⟩
  · simp [removeLineItem, enumFrom, emptyLineItem]
  · simp [addLineItem]
  · cases items with
    | nil => exact absurd rfl hne
    | cons y ys => simp [handleLineItemChange, enumFrom]

/-- Witness for C8 at the singleton edit state `[wItem]`. -/
theorem C8_placeholder_invariant_witness :
    (removeLineItem 0 0 [wItem]).1
        = [{ id := 0, invoiceId := 0, description := "", quantity := 1,
             unitPrice := 0, total := 0 }]
      ∧ (removeLineItem 0 0 [wItem]).1 ≠ []
      ∧ (addLineItem 0 [wItem]).1 ≠ []
      ∧ (handleLineItemChange 0 { } [wItem]).1 ≠ [] :=
  C8_placeholder_invariant 0 wItem [wItem] (List.cons_ne_nil wItem []) 0 { }

/-- C9 counterexample: `DatabaseStorage.createInvoiceItem` stores a
negative quantity and a negative unit price unchanged — `Number(x) || 1`
and `Number(x) || 0` only replace `NaN` and `0` — whereas the claim says a
non-positive quantity is coerced to 1 and a negative unit price to 0 before
the item is stored. -/
theorem C9_negative_passthrough_counterexample :
    (createInvoiceItem dbEmpty badItem).2.quantity = -3
      ∧ (createInvoiceItem dbEmpty badItem).2.unitPrice = -2
      ∧ ((-3 : ℚ) ≠ 1 ∧ (-2 : ℚ) ≠ 0) := by decide

/-- C9 amended: in the client `LineItem` handlers a non-positive or
non-numeric quantity is coerced to 1 and a negative or non-numeric unit
price to 0, and the item total is recomputed from the coerced value; at the
storage layer `createInvoiceItem` coerces only a non-numeric or zero
quantity to 1 and a non-numeric unit price to 0, storing any other value —
negative values included — unchanged. -/
theorem C9_amended_coercion (item : InvoiceItem) (n : Int) (v q p : ℚ)
    (db : DB) (ins : InsertInvoiceItem) :
    ((handleQuantityChange none item).quantity = 1
      ∧ (n ≤ 0 → (handleQuantityChange (some n) item).quantity = 1)
      ∧ (0 < n → (handleQuantityChange (some n) item).quantity = (n : ℚ))
      ∧ (handleQuantityChange (some n) item).total
        = (handleQuantityChange (some n) item).quantity * jsOrQ item.unitPrice 0
      ∧ (handleQuantityChange none item).total = 1 * jsOrQ item.unitPrice 0)
    ∧ ((handleUnitPriceChange none item).unitPrice = 0
      ∧ (v < 0 → (handleUnitPriceChange (some v) item).unitPrice = 0)
      ∧ (0 ≤ v → (handleUnitPriceChange (some v) item).unitPrice = v)
      ∧ (handleUnitPriceChange (some v) item).total
        = jsOrQ item.quantity 1 * (handleUnitPriceChange (some v) item).unitPrice)
    ∧ ((createInvoiceItem db { ins with quantity := none }).2.quantity = 1
      ∧ (createInvoiceItem db { ins with quantity := some 0 }).2.quantity = 1
      ∧ (q ≠ 0 → (createInvoiceItem db { ins with quantity := some q }).2.quantity = q)
      ∧ (createInvoiceItem db { ins with unitPrice := none }).2.unitPrice = 0
      ∧ (createInvoiceItem db { ins with unitPrice := some p }).2.unitPrice = p) := by
  refine ⟨⟨rfl, ?_, ?_, rfl, rfl⟩, ⟨rfl, ?_, ?_, rfl⟩, ⟨rfl, ?_, ?_, rfl, ?_⟩⟩
  · intro h
    simp [handleQuantityChange, if_neg (not_lt.mpr h)]
  · intro h
    simp [handleQuantityChange, if_pos h]
  · intro h
    simp [handleUnitPriceChange, if_neg (not_le.mpr h)]
  · intro h
    simp [handleUnitPriceChange, if_pos h]
  · simp [createInvoiceItem, jsNumOr]
  · intro h
    simp [createInvoiceItem, jsNumOr, h]
  · by_cases h : p = 0 <;> simp [createInvoiceItem, jsNumOr, h]

/-- Witness for C9 at concrete negative inputs. -/
theorem C9_amended_coercion_witness :
    ((handleQuantityChange none wItem).quantity = 1
      ∧ ((-2 : Int) ≤ 0 → (handleQuantityChange (some (-2)) wItem).quantity = 1)
      ∧ ((0 : Int) < -2 → (handleQuantityChange (some (-2)) wItem).quantity = ((-2 : Int) : ℚ))
      ∧ (handleQuantityChange (some (-2)) wItem).total
        = (handleQuantityChange (some (-2)) wItem).quantity * jsOrQ wItem.unitPrice 0
      ∧ (handleQuantityChange none wItem).total = 1 * jsOrQ wItem.unitPrice 0)
    ∧ ((handleUnitPriceChange none wItem).unitPrice = 0
      ∧ ((-1 : ℚ) < 0 → (handleUnitPriceChange (some (-1)) wItem).unitPrice = 0)
      ∧ ((0 : ℚ) ≤ -1 → (handleUnitPriceChange (some (-1)) wItem).unitPrice = -1)
      ∧ (handleUnitPriceChange (some (-1)) wItem).total
        = jsOrQ wItem.quantity 1 * (handleUnitPriceChange (some (-1)) wItem).unitPrice)
    ∧ ((createInvoiceItem dbEmpty { badItem with quantity := none }).2.quantity = 1
      ∧ (createInvoiceItem dbEmpty { badItem with quantity := some 0 }).2.quantity = 1
      ∧ ((-3 : ℚ) ≠ 0 → (createInvoiceItem dbEmpty { badItem with quantity := some (-3) }).2.quantity = -3)
      ∧ (createInvoiceItem dbEmpty { badItem with unitPrice := none }).2.unitPrice = 0
      ∧ (createInvoiceItem dbEmpty { badItem with unitPrice := some (-2) }).2.unitPrice = -2) :=
  C9_amended_coercion wItem (-2) (-1) (-3) (-2) dbEmpty badItem

/-! ## Supporting lemmas for the approval workflow -/

/-- The per-row effect of the approve update inside `updateUser`. -/
def approveFn (uid : Nat) (u : User) : User :=
  if u.id == uid then applyUserPatch u approvePatch else u

theorem updateUser_approve (store : List User) (uid : Nat) :
    updateUser store uid approvePatch
      = (store.map (approveFn uid),
         (store.map (approveFn uid)).find? fun u => u.id == uid) := rfl

theorem approveFn_id (uid : Nat) (u : User) : (approveFn uid u).id = u.id := by
  unfold approveFn; split <;> rfl

theorem approveFn_username (uid : Nat) (u : User) :
    (approveFn uid u).username = u.username := by
  unfold approveFn; split <;> rfl

theorem approveFn_approved_of_id (uid : Nat) (u : User) (h : u.id = uid) :
    approveFn uid u = { u with approved := true } := by
  simp [approveFn, h, applyUserPatch, approvePatch]

theorem approveFn_idem (uid : Nat) (u : User) :
    approveFn uid (approveFn uid u) = approveFn uid u := by
  by_cases h : u.id = uid
  · rw [approveFn_approved_of_id uid u h,
      approveFn_approved_of_id uid { u with approved := true } h]
  · simp [approveFn, h]

theorem map_approveFn_idem (store : List User) (uid : Nat) :
    (store.map (approveFn uid)).map (approveFn uid) = store.map (approveFn uid) := by
  induction store with
  | nil => rfl
  | cons x xs ih => simp only [List.map_cons, approveFn_idem, ih]

theorem find_id_map_approveFn (store : List User) (uid : Nat)
    (hex : ∃ u ∈ store, u.id = uid) :
    ∃ v, ((store.map (approveFn uid)).find? fun u => u.id == uid) = some v
      ∧ v.approved = true := by
  induction store with
  | nil => simp at hex
  | cons x xs ih =>
    by_cases h : x.id = uid
    · refine ⟨approveFn uid x, ?_, ?_⟩
      · rw [List.map_cons]
        exact List.find?_cons_of_pos _ (by simp [approveFn_id, h])
      · rw [approveFn_approved_of_id uid x h]
    · obtain ⟨u, hu, hid⟩ := hex
      rcases List.mem_cons.mp hu with h1 | h2
      · exact absurd (h1 ▸ hid) h
      · obtain ⟨v, hv, happ⟩ := ih ⟨u, h2, hid⟩
        refine ⟨v, ?_, happ⟩
        rw [List.map_cons, List.find?_cons_of_neg _ (by simp [approveFn_id, h])]
        exact hv

theorem find_username_map_approveFn (store : List User) (uid : Nat) (uname : String) :
    ((store.map (approveFn uid)).find? fun x => x.username == uname)
      = (store.find? fun x => x.username == uname).map (approveFn uid) := by
  induction store with
  | nil => rfl
  | cons x xs ih =>
    by_cases h : x.username = uname
    · rw [List.map_cons,
        List.find?_cons_of_pos _ (by simp [approveFn_username, h]),
        List.find?_cons_of_pos _ (by simp [h])]
      rfl
    · rw [List.map_cons,
        List.find?_cons_of_neg _ (by simp [approveFn_username, h]),
        List.find?_cons_of_neg _ (by simp [h]), ih]

theorem approveUserHandler_fst (store : List User) (uid : Nat) :
    (approveUserHandler store (some uid)).1 = store.map (approveFn uid) := by
  simp only [approveUserHandler, updateUser_approve]
  cases h : (store.map (approveFn uid)).find? fun u => u.id == uid <;> simp [h]

/-! ## Claims about authentication and approval -/

/-- C2: a stored user with role `staff` and `approved = false` cannot
authenticate even with the correct password, and after the admin approve
operation on their id the same credentials succeed and return that user
(now with `approved = true`). -/
theorem C2_staff_approval_gate (scrypt : String → String → List Nat)
    (store : List User) (uname pw : String) (u : User)
    (hfind : getUserByUsername store uname = some u)
    (hrole : u.role = "staff") (happ : u.approved = false)
    (hpw : comparePasswords scrypt pw u.password = true) :
    localStrategyVerify scrypt store uname pw = none
      ∧ localStrategyVerify scrypt (approveUserHandler store (some u.id)).1 uname pw
          = some { u with approved := true } := by
  have hbne : (("staff" : String) != "admin") = true := rfl
  constructor
  · simp only [localStrategyVerify, hfind, hpw]
    simp [hrole, happ, hbne]
  · rw [approveUserHandler_fst]
    have hfind2 : getUserByUsername (store.map (approveFn u.id)) uname
        = some (approveFn u.id u) := by
      unfold getUserByUsername at hfind ⊢
      rw [find_username_map_approveFn, hfind]
      rfl
    have hfu : approveFn u.id u = { u with approved := true } :=
      approveFn_approved_of_id u.id u rfl
    have hpw2 : comparePasswords scrypt pw ({ u with approved := true } : User).password
        = true := hpw
    simp only [localStrategyVerify, hfind2, hfu, hpw2]
    simp

/-- Witness for C2: the pending staff user `wBob` with matching password
`pw` under the toy derivation `scryptW`. -/
theorem C2_staff_approval_gate_witness :
    localStrategyVerify scryptW [wBob] "bob" "pw" = none
      ∧ localStrategyVerify scryptW (approveUserHandler [wBob] (some wBob.id)).1 "bob" "pw"
          = some { wBob with approved := true } :=
  C2_staff_approval_gate scryptW [wBob] "bob" "pw" wBob (by decide) rfl rfl (by decide)

/-- C3 (code bug): `comparePasswords` accepts the supplied password
`admin` for any stored credential beginning with one of the hard-coded
hashes, even though the key re-derived with the stored salt does not match
the stored hash — so a password other than the scrypt-matching one is
accepted, contradicting the claim. -/
theorem C3_backdoor_accepts_admin :
    comparePasswords scryptStub "admin"
        "8c6976e5b5410415bde908bd4dee15dfb167a9c873fc4bb8a81f6f2ab448a918.abcd" = true
      ∧ hexEncode (scryptStub "admin" "abcd")
          ≠ "8c6976e5b5410415bde908bd4dee15dfb167a9c873fc4bb8a81f6f2ab448a918"
      ∧ hexDecode "8c6976e5b5410415bde908bd4dee15dfb167a9c873fc4bb8a81f6f2ab448a918"
          ≠ scryptStub "admin" "abcd" := by decide

/-- C6: approving an existing user twice leaves `approved = true`, the
second call also answers 200 with a user record, and both the store and the
response after the second call equal those after the first. -/
theorem C6_approve_idempotent (store : List User) (uid : Nat)
    (hex : ∃ u ∈ store, u.id = uid) :
    (∃ v, (approveUserHandler (approveUserHandler store (some uid)).1 (some uid)).2
          = HResult.success 200 v ∧ v.approved = true)
      ∧ (approveUserHandler (approveUserHandler store (some uid)).1 (some uid)).1
          = (approveUserHandler store (some uid)).1
      ∧ (approveUserHandler (approveUserHandler store (some uid)).1 (some uid)).2
          = (approveUserHandler store (some uid)).2 := by
  obtain ⟨v, hv, happ⟩ := find_id_map_approveFn store uid hex
  have hfind2 : (((store.map (approveFn uid)).map (approveFn uid)).find?
      fun u => u.id == uid) = some v := by
    rw [map_approveFn_idem]; exact hv
  have h1 : approveUserHandler store (some uid)
      = (store.map (approveFn uid), .success 200 v) := by
    simp only [approveUserHandler, updateUser_approve, hv]
  have h2 : approveUserHandler (store.map (approveFn uid)) (some uid)
      = ((store.map (approveFn uid)).map (approveFn uid), .success 200 v) := by
    simp only [approveUserHandler, updateUser_approve, hfind2]
  have h1a : (approveUserHandler store (some uid)).1 = store.map (approveFn uid) := by
    rw [h1]
  have h1b : (approveUserHandler store (some uid)).2 = .success 200 v := by
    rw [h1]
  have h2a : (approveUserHandler (store.map (approveFn uid)) (some uid)).1
      = store.map (approveFn uid) := by
    rw [h2, map_approveFn_idem]
  have h2b : (approveUserHandler (store.map (approveFn uid)) (some uid)).2
      = .success 200 v := by
    rw [h2]
  refine ⟨⟨v, ?_, happ⟩, ?_, ?_⟩
  · rw [h1a, h2b]
  · rw [h1a, h2a]
  · rw [h1a, h2b, h1b]

/-- Witness for C6 at the one-user store `[wBob]` and its id 2. -/
theorem C6_approve_idempotent_witness :
    (∃ v, (approveUserHandler (approveUserHandler [wBob] (some 2)).1 (some 2)).2
          = HResult.success 200 v ∧ v.approved = true)
      ∧ (approveUserHandler (approveUserHandler [wBob] (some 2)).1 (some 2)).1
          = (approveUserHandler [wBob] (some 2)).1
      ∧ (approveUserHandler (approveUserHandler [wBob] (some 2)).1 (some 2)).2
          = (approveUserHandler [wBob] (some 2)).2 :=
  C6_approve_idempotent [wBob] 2 ⟨wBob, by simp, rfl⟩

/-- C7 (code bug): deleting a non-existent user id through the reject
endpoint answers 200 "User deleted successfully" instead of the claimed
NotFound, because `deleteUser` returns `true` unconditionally, making the
handler's 404 branch unreachable. -/
theorem C7_delete_nonexistent_reports_success :
    (∀ u ∈ [wAdmin], u.id ≠ 999)
      ∧ rejectUserHandler [wAdmin] (some 999)
        = ([wAdmin], .success 200 "User deleted successfully") := by decide

/-- C10: an authenticated admin who targets their own id through
`DELETE /api/staff/:id` gets a 400 failure and the user store is unchanged. -/
theorem C10_cannot_delete_self (store : List User) (caller : User)
    (hrole : caller.role = "admin") :
    deleteStaffHandler store caller caller.id
      = (store, .failure 400 "Cannot delete your own account") := by
  simp [deleteStaffHandler, hrole]

/-- Witness for C10: the admin `wAdmin` targeting their own id. -/
theorem C10_cannot_delete_self_witness :
    deleteStaffHandler [wAdmin] wAdmin wAdmin.id
      = ([wAdmin], .failure 400 "Cannot delete your own account") :=
  C10_cannot_delete_self [wAdmin] wAdmin rfl

/-! ## Claims about POST /api/invoices -/

/-- A request body whose client-supplied totals disagree with its line
items: one item with total 200, but `amount = 5`, `tax = 1`, `total = 6`. -/
def bodyC4 : InvoiceRequestBody :=
  { jobId := some 3, customerId := some 4, invoiceNumber := some "INV-0042",
    amount := some 5, tax := some 1, total := some 6,
    lineItems := [{ description := some "Ice blasting", quantity := some 2,
                    unitPrice := some 100, total := some 200 }] }

/-- A request body with one valid line item and one invalid line item
(missing description). -/
def bodyC5 : InvoiceRequestBody :=
  { jobId := some 3, customerId := some 4, invoiceNumber := some "INV-0042",
    amount := some 240, tax := some 40, total := some 280,
    lineItems := [{ description := some "Ice blasting", quantity := some 2,
                    unitPrice := some 100, total := some 200 },
                  { description := none, quantity := some 1,
                    unitPrice := some 5, total := some 5 }] }

/-- An alternative non-empty line-item list used to show the stored totals
do not react to the line items. -/
def altItems : List RawLineItem :=
  [{ description := some "Other work", quantity := some 1,
     unitPrice := some 999, total := some 999 }]

/-- C4 counterexample: the handler persists the client-supplied
`amount = 5`, `tax = 1`, `total = 6` although the submitted line items'
totals are `[200]` — the claim's server-side computation would require
`amount = 200`, `tax = 40`, `total = 240`. -/
theorem C4_totals_client_supplied_counterexample :
    (postInvoices dbEmpty "INV-9999" 7 bodyC4).1.invoices
        = [{ id := 1, invoiceNumber := "INV-0042", jobId := 3, customerId := 4,
             amount := 5, tax := 1, total := 6, createdBy := 7 }]
      ∧ (bodyC4.lineItems.map fun it => jsNumOr it.total 0) = [200]
      ∧ ((5 : ℚ) ≠ 200 ∧ (1 : ℚ) ≠ 40 ∧ (6 : ℚ) ≠ 240) := by decide

/-- C4 amended: for every body passing the handler's validation, the
persisted invoice's `amount`, `tax` and `total` are exactly the
client-supplied fields parsed with `parseFloat(String(x || '0'))` — the
handler performs no server-side recomputation from the line items, and
replacing the line items with any other non-empty list leaves the stored
totals unchanged. -/
theorem C4_amended_totals_from_client (db : DB) (gen : String) (callerId : Nat)
    (body : InvoiceRequestBody) (items2 : List RawLineItem)
    (hjob : jsFalsyNat body.jobId = false)
    (hcust : jsFalsyNat body.customerId = false)
    (hitems : body.lineItems.isEmpty = false)
    (hitems2 : items2.isEmpty = false) :
    ∃ inv created inv2 created2,
      (postInvoices db gen callerId body).2 = .success 201 (inv, created)
        ∧ inv.amount = jsNumOr body.amount 0
        ∧ inv.tax = jsNumOr body.tax 0
        ∧ inv.total = jsNumOr body.total 0
        ∧ (postInvoices db gen callerId { body with lineItems := items2 }).2
            = .success 201 (inv2, created2)
        ∧ inv2.amount = inv.amount ∧ inv2.tax = inv.tax ∧ inv2.total = inv.total := by
  simp only [postInvoices, hjob, hcust, hitems, hitems2, Bool.false_eq_true, if_false]
  exact ⟨_, _, _, _, rfl, rfl, rfl, rfl, rfl, rfl, rfl, rfl⟩

/-- Witness for C4 amended at the concrete body `bodyC4` and replacement
items `altItems`. -/
theorem C4_amended_totals_from_client_witness :
    ∃ inv created inv2 created2,
      (postInvoices dbEmpty "INV-9999" 7 bodyC4).2 = .success 201 (inv, created)
        ∧ inv.amount = jsNumOr bodyC4.amount 0
        ∧ inv.tax = jsNumOr bodyC4.tax 0
        ∧ inv.total = jsNumOr bodyC4.total 0
        ∧ (postInvoices dbEmpty "INV-9999" 7 { bodyC4 with lineItems := altItems }).2
            = .success 201 (inv2, created2)
        ∧ inv2.amount = inv.amount ∧ inv2.tax = inv.tax ∧ inv2.total = inv.total :=
  C4_amended_totals_from_client dbEmpty "INV-9999" 7 bodyC4 altItems
    (by decide) (by decide) (by decide) (by decide)

/-- C5 (code bug): submitting two line items of which one fails validation
does not fail atomically — the handler persists the invoice together with
the one valid item, skips the invalid one, and answers 201. -/
theorem C5_partial_line_item_persistence :
    bodyC5.lineItems.length = 2
      ∧ postInvoices dbEmpty "INV-9999" 7 bodyC5
        = ({ invoices := [{ id := 1, invoiceNumber := "INV-0042", jobId := 3,
                            customerId := 4, amount := 240, tax := 40, total := 280,
                            createdBy := 7 }],
             invoiceItems := [{ id := 1, invoiceId := 1, description := "Ice blasting",
                                quantity := 2, unitPrice := 100, total := 200 }],
             nextInvoiceId := 2, nextItemId := 2 },
           .success 201 ({ id := 1, invoiceNumber := "INV-0042", jobId := 3,
                           customerId := 4, amount := 240, tax := 40, total := 280,
                           createdBy := 7 },
                         [{ id := 1, invoiceId := 1, description := "Ice blasting",
                            quantity := 2, unitPrice := 100, total := 200 }])) := by decide

end FrostyBlast
